import Mathlib

/-!
Verification of the claim-ingestion pipeline (src/pipe.py): a shallow
embedding of `normalize_record`, `mock_llm_classifier` and
`is_eligible_for_resubmission`, followed by theorems settling the spec
claims about them.

Modelling conventions:
* Raw-record values are the scalar Python values this pipeline actually
  handles: strings, `None`, and float NaN (the pandas missing-value
  marker, explicitly tested by the source via `pd.isna`).  A raw record
  is a partial map from string keys to such values (`none` = key absent).
* Python `str()`, truthiness, `dict.get`, `or`, `str.strip`, `str.lower`
  and `pattern in s` are embedded directly.  Case folding is modelled on
  ASCII letters, whitespace as the six ASCII whitespace characters; all
  data reaching these functions in the claims is ASCII.
* `datetime.strptime(s, "%Y-%m-%d")` and `datetime.fromisoformat` are
  modelled by executable parsers (`pyStrptimeYMD`, `pyFromIsoformat`)
  covering the shapes relevant here: a calendar date `YYYY-MM-DD`
  (month/day of one or two digits for strptime, exactly two for
  fromisoformat) optionally followed, for fromisoformat, by a literal
  separator with an `HH:MM[:SS]` time and an optional numeric offset.
  Both validate ranges exactly as CPython does and re-emit dates through
  `Date.isoformat` (`YYYY-MM-DD`).
* A raised exception is an explicit `ClassifyResult.error` value.
-/

namespace IngestPipe

/-- A scalar Python value as it occurs in this pipeline raw records:
a string, `None`, or float NaN (the pandas missing-value marker). -/
inductive PyVal where
  | vStr (s : String)
  | vNull
  | vNan
deriving DecidableEq

/-- Python truthiness of the scalar values: empty string and `None` are
falsy; NaN is a non-zero float, hence truthy. -/
def PyVal.truthy : PyVal → Bool
  | PyVal.vStr s => !(s == "")
  | PyVal.vNull => false
  | PyVal.vNan => true

/-- Python `str(x)` on the scalar values: `str(None) = "None"`,
`str(float("nan")) = "nan"`. -/
def pyStr : PyVal → String
  | PyVal.vStr s => s
  | PyVal.vNull => "None"
  | PyVal.vNan => "nan"

/-- `pd.isna` on scalars: true exactly on `None` and NaN. -/
def pdIsna : PyVal → Bool
  | PyVal.vStr _ => false
  | PyVal.vNull => true
  | PyVal.vNan => true

/-- Python `a or b`: the first operand if truthy, otherwise the second. -/
def pyOr (a b : PyVal) : PyVal :=
  if a.truthy then a else b

/-- A raw source record: a partial map from string keys to scalar
values; `none` means the key is absent. -/
def RawRecord : Type := String → Option PyVal

/-- Python `record.get(k)`: the stored value, or `None` when absent. -/
def pyGet (r : RawRecord) (k : String) : PyVal :=
  (r k).getD PyVal.vNull

/-- Python `record.get(k, d)`: the stored value, or the default `d` when
the key is absent. -/
def pyGetD (r : RawRecord) (k : String) (d : PyVal) : PyVal :=
  (r k).getD d

/-- Build a raw record from an association list of key/value pairs. -/
def recordOf (l : List (String × PyVal)) : RawRecord :=
  fun k => (l.find? (fun p => p.1 == k)).map (fun p => p.2)

/-- The six ASCII whitespace characters stripped by Python `str.strip()`. -/
def pyIsSpace (c : Char) : Bool :=
  c.toNat = 32 || c.toNat = 9 || c.toNat = 10 || c.toNat = 13 ||
    c.toNat = 11 || c.toNat = 12

/-- Remove leading and trailing whitespace from a character list. -/
def stripList (l : List Char) : List Char :=
  List.rdropWhile pyIsSpace (List.dropWhile pyIsSpace l)

/-- Python `s.strip()`. -/
def pyStrip (s : String) : String :=
  String.mk (stripList s.data)

/-- ASCII lower-casing of one character (Python `str.lower` restricted
to the ASCII range). -/
def lowerChar (c : Char) : Char :=
  if 65 ≤ c.toNat ∧ c.toNat ≤ 90 then Char.ofNat (c.toNat + 32) else c

/-- Python `s.lower()` (ASCII). -/
def pyLower (s : String) : String :=
  String.mk (s.data.map lowerChar)

/-- Is `pat` a prefix of `l`? -/
def isPrefixList : List Char → List Char → Bool
  | [], _ => true
  | _ :: _, [] => false
  | a :: as, b :: bs => a == b && isPrefixList as bs

/-- Does `pat` occur as a contiguous sublist of `l`? -/
def hasSubList (pat : List Char) : List Char → Bool
  | [] => isPrefixList pat []
  | c :: rest => isPrefixList pat (c :: rest) || hasSubList pat rest

/-- Python substring test `pat in s`. -/
def pyIn (pat s : String) : Bool :=
  hasSubList pat.data s.data

/-- Python `s.replace("Z", "+00:00")` on the character list (every
occurrence of `Z` is replaced, as `str.replace` does). -/
def replaceZList : List Char → List Char
  | [] => []
  | c :: cs =>
      (if c = 'Z' then ['+', '0', '0', ':', '0', '0'] else [c]) ++ replaceZList cs

/-- Python `s.replace("Z", "+00:00")`. -/
def replaceZ (s : String) : String :=
  String.mk (replaceZList s.data)

/-- A proleptic Gregorian calendar date, as `datetime.date`. -/
structure Date where
  year : Nat
  month : Nat
  day : Nat
deriving DecidableEq

/-- Gregorian leap-year test, as CPython `calendar.isleap`. -/
def isLeapYear (y : Nat) : Bool :=
  y % 4 == 0 && (y % 100 != 0 || y % 400 == 0)

/-- Number of days in a month of a given year. -/
def daysInMonth (y m : Nat) : Nat :=
  if m = 2 then (if isLeapYear y then 29 else 28)
  else if m = 4 ∨ m = 6 ∨ m = 9 ∨ m = 11 then 30
  else 31

/-- The range invariant `datetime.date` enforces on construction. -/
def Date.valid (d : Date) : Prop :=
  1 ≤ d.year ∧ d.year ≤ 9999 ∧ 1 ≤ d.month ∧ d.month ≤ 12 ∧
    1 ≤ d.day ∧ d.day ≤ daysInMonth d.year d.month

instance (d : Date) : Decidable d.valid := by
  unfold Date.valid
  infer_instance

/-- Days in the years before year `y`, as CPython `_days_before_year`. -/
def daysBeforeYear (y : Nat) : Nat :=
  365 * (y - 1) + (y - 1) / 4 + (y - 1) / 400 - (y - 1) / 100

/-- Days in the months of year `y` strictly before month `m`, as CPython
`_days_before_month`. -/
def daysBeforeMonth (y m : Nat) : Nat :=
  ((List.range (m - 1)).map (fun i => daysInMonth y (i + 1))).sum

/-- CPython `date.toordinal`: day count with day 1 = 0001-01-01. -/
def Date.toordinal (d : Date) : Nat :=
  daysBeforeYear d.year + daysBeforeMonth d.year d.month + d.day

/-- The decimal digit character for `k ≤ 9` (only applied to residues
modulo 10). -/
def digitChar : Nat → Char
  | 0 => '0'
  | 1 => '1'
  | 2 => '2'
  | 3 => '3'
  | 4 => '4'
  | 5 => '5'
  | 6 => '6'
  | 7 => '7'
  | 8 => '8'
  | _ => '9'

/-- Two-digit zero-padded decimal rendering (`"%02d"` for values below
100, the range used by month and day). -/
def pad2l (n : Nat) : List Char :=
  [digitChar (n / 10 % 10), digitChar (n % 10)]

/-- Four-digit zero-padded decimal rendering (`"%04d"` for values below
10000, the range used by the year). -/
def pad4l (n : Nat) : List Char :=
  [digitChar (n / 1000 % 10), digitChar (n / 100 % 10),
    digitChar (n / 10 % 10), digitChar (n % 10)]

/-- The characters of `date.isoformat()`: `YYYY-MM-DD`. -/
def Date.isoformatList (d : Date) : List Char :=
  pad4l d.year ++ '-' :: (pad2l d.month ++ '-' :: pad2l d.day)

/-- CPython `date.isoformat()`. -/
def Date.isoformat (d : Date) : String :=
  String.mk d.isoformatList

/-- Is `c` an ASCII decimal digit? -/
def isDigitChar (c : Char) : Bool :=
  48 ≤ c.toNat ∧ c.toNat ≤ 57

/-- Numeric value of a digit string (most significant first). -/
def digitsToNat (l : List Char) : Nat :=
  l.foldl (fun a c => 10 * a + (c.toNat - 48)) 0

/-- Split off the maximal leading run of decimal digits. -/
def spanDigits : List Char → List Char × List Char
  | [] => ([], [])
  | c :: cs =>
      if isDigitChar c then
        let p := spanDigits cs
        (c :: p.1, p.2)
      else ([], c :: cs)

/-- Parse a strict `YYYY-MM-DD` prefix (exactly two digits for month and
day, as `datetime.fromisoformat` requires), validating ranges as the
`datetime.date` constructor does; returns the date and the remaining
characters. -/
def parseIsoDatePrefix : List Char → Option (Date × List Char)
  | y1 :: y2 :: y3 :: y4 :: c1 :: m1 :: m2 :: c2 :: d1 :: d2 :: rest =>
      if isDigitChar y1 ∧ isDigitChar y2 ∧ isDigitChar y3 ∧ isDigitChar y4 ∧
          c1 = '-' ∧ isDigitChar m1 ∧ isDigitChar m2 ∧ c2 = '-' ∧
          isDigitChar d1 ∧ isDigitChar d2 then
        if _h : (Date.mk (digitsToNat [y1, y2, y3, y4]) (digitsToNat [m1, m2])
            (digitsToNat [d1, d2])).valid then
          some (Date.mk (digitsToNat [y1, y2, y3, y4]) (digitsToNat [m1, m2])
            (digitsToNat [d1, d2]), rest)
        else none
      else none
  | _ => none

/-- Parse exactly two decimal digits, returning the value and the rest. -/
def twoDigits : List Char → Option (Nat × List Char)
  | a :: b :: rest =>
      if isDigitChar a ∧ isDigitChar b then
        some (digitsToNat [a, b], rest)
      else none
  | _ => none

/-- Validate an optional trailing UTC-offset `±HH:MM` (the shape the
pipeline produces by rewriting a trailing `Z` to `+00:00`). -/
def validOffsetTail : List Char → Bool
  | [] => true
  | sign :: rest =>
      if sign = '+' ∨ sign = '-' then
        match twoDigits rest with
        | some (oh, r1) =>
            match r1 with
            | ':' :: r2 =>
                match twoDigits r2 with
                | some (om, r3) => decide (oh ≤ 23 ∧ om ≤ 59) && r3.isEmpty
                | none => false
            | _ => false
        | none => false
      else false

/-- Validate a time-of-day tail `HH:MM[:SS]` followed by an optional
offset, with the range checks `datetime` performs. -/
def validTimeTail (l : List Char) : Bool :=
  match twoDigits l with
  | none => false
  | some (hh, r1) =>
      match r1 with
      | ':' :: r2 =>
          match twoDigits r2 with
          | none => false
          | some (mm, r3) =>
              if hh ≤ 23 ∧ mm ≤ 59 then
                match r3 with
                | ':' :: r4 =>
                    match twoDigits r4 with
                    | none => false
                    | some (ss, r5) => decide (ss ≤ 59) && validOffsetTail r5
                | r5 => validOffsetTail r5
              else false
      | _ => false

/-- CPython `datetime.fromisoformat(s).date()` on the shapes this
pipeline can meet: a bare `YYYY-MM-DD`, or `YYYY-MM-DD` followed by the
separator `T` and a time `HH:MM[:SS]` with an optional `±HH:MM` offset.
`none` models the `ValueError` raised on any other input. -/
def pyFromIsoformat (s : String) : Option Date :=
  match parseIsoDatePrefix s.data with
  | none => none
  | some (d, rest) =>
      match rest with
      | [] => some d
      | sep :: timePart =>
          if sep = 'T' ∧ validTimeTail timePart then some d else none

/-- CPython `datetime.strptime(s, "%Y-%m-%d").date()`: exactly four
digits of year, one or two digits of month and day, nothing trailing,
with the `datetime.date` range validation.  `none` models `ValueError`. -/
def pyStrptimeYMD (s : String) : Option Date :=
  match spanDigits s.data with
  | (yd, '-' :: r2) =>
      if yd.length = 4 then
        match spanDigits r2 with
        | (md, '-' :: r4) =>
            if 1 ≤ md.length ∧ md.length ≤ 2 then
              match spanDigits r4 with
              | (ddl, []) =>
                  if 1 ≤ ddl.length ∧ ddl.length ≤ 2 then
                    if _h : (Date.mk (digitsToNat yd) (digitsToNat md)
                        (digitsToNat ddl)).valid then
                      some (Date.mk (digitsToNat yd) (digitsToNat md) (digitsToNat ddl))
                    else none
                  else none
              | _ => none
            else none
        | _ => none
      else none
  | _ => none

/-- Is `s` exactly a valid ISO calendar-date string `YYYY-MM-DD`? -/
def isIsoCalendarDate (s : String) : Bool :=
  match parseIsoDatePrefix s.data with
  | some (_, []) => true
  | _ => false

/-- Is the scalar either an ISO calendar-date string or `None`?  (The
shape the spec asserts for the normalized `submitted_at` field.) -/
def isDateOrNull : PyVal → Bool
  | PyVal.vStr s => isIsoCalendarDate s
  | PyVal.vNull => true
  | PyVal.vNan => false

/-- Is the scalar a string or `None` (not NaN)? -/
def stringOrNull : PyVal → Bool
  | PyVal.vNan => false
  | _ => true

/-- The canonical record produced by `normalize_record` (src/pipe.py
lines 38-58): the five string fields are always Python strings, while
`submitted_at` keeps whatever scalar the date-normalization step left. -/
structure NormalizedClaim where
  claim_id : String
  patient_id : String
  procedure_code : String
  denial_reason : String
  status : String
  submitted_at : PyVal
  source_system : String
deriving DecidableEq

/-- The raw source value feeding `submitted_at`:
`record.get("submitted_at") or record.get("date")`. -/
def rawDateValue (record : RawRecord) : PyVal :=
  pyOr (pyGet record "submitted_at") (pyGet record "date")

/-- The date-normalization step of `normalize_record` (src/pipe.py lines
60-81): a string containing `T` goes through `fromisoformat` after the
`Z` rewrite, any other string through `strptime("%Y-%m-%d")`; a parse
success is re-emitted as `date().isoformat()`, a `ValueError` is caught,
logged (the Bool records that warning) and the field set to `None`;
non-string values pass through untouched. -/
def normalizeDate : PyVal → PyVal × Bool
  | PyVal.vStr s =>
      if s.data.contains 'T' then
        match pyFromIsoformat (replaceZ s) with
        | some d => (PyVal.vStr d.isoformat, false)
        | none => (PyVal.vNull, true)
      else
        match pyStrptimeYMD s with
        | some d => (PyVal.vStr d.isoformat, false)
        | none => (PyVal.vNull, true)
  | w => (w, false)

/-- `normalize_record(record, source_system)` (src/pipe.py lines 34-83). -/
def normalize_record (record : RawRecord) (source_system : String) : NormalizedClaim :=
  { claim_id :=
      pyStrip (pyStr (pyOr (pyGet record "claim_id")
        (pyGetD record "id" (PyVal.vStr "unknown")))),
    patient_id :=
      pyStrip (pyStr (pyOr (pyGet record "patient_id")
        (pyGetD record "member" (PyVal.vStr "unknown")))),
    procedure_code :=
      pyStrip (pyStr (pyOr (pyGet record "procedure_code") (PyVal.vStr "unknown"))),
    denial_reason :=
      if pdIsna (pyOr (pyGet record "denial_reason") (pyGet record "error_msg")) then
        "unknown"
      else
        pyStrip (pyStr (pyOr (pyGet record "denial_reason")
          (pyGetD record "error_msg" (PyVal.vStr "unknown")))),
    status :=
      if pdIsna (pyGet record "status") then "unknown"
      else pyStrip (pyLower (pyStr (pyGetD record "status" (PyVal.vStr "unknown")))),
    submitted_at := (normalizeDate (rawDateValue record)).1,
    source_system := source_system }

/-- Whether `normalize_record` emits its warning-level log event (only
the date-parse failure path does). -/
def normalize_warns (record : RawRecord) : Bool :=
  (normalizeDate (rawDateValue record)).2

/-- The dict a normalized claim presents when fed back into the
normalizer (each canonical field under its primary key). -/
def claimToRecord (c : NormalizedClaim) : RawRecord :=
  recordOf
    [("claim_id", PyVal.vStr c.claim_id),
     ("patient_id", PyVal.vStr c.patient_id),
     ("procedure_code", PyVal.vStr c.procedure_code),
     ("denial_reason", PyVal.vStr c.denial_reason),
     ("status", PyVal.vStr c.status),
     ("submitted_at", c.submitted_at),
     ("source_system", PyVal.vStr c.source_system)]

/-- `mock_llm_classifier(denial_reason)` (src/pipe.py lines 15-30):
true when the reason is inferred retryable. -/
def mock_llm_classifier (denial_reason : PyVal) : Bool :=
  if pdIsna denial_reason then false
  else
    let reason_lower := pyLower (pyStr denial_reason)
    if pyIn "incorrect procedure" reason_lower then false
    else if pyIn "form incomplete" reason_lower then true
    else if pyIn "not billable" reason_lower then false
    else false

/-- The retryable denial-reason set (src/pipe.py line 105). -/
def retryable_reasons : List String :=
  ["Missing modifier", "Incorrect NPI", "Prior auth required"]

/-- The non-retryable denial-reason set (src/pipe.py line 106). -/
def non_retryable_reasons : List String :=
  ["Authorization expired", "Incorrect provider type"]

/-- The kinds of exception `is_eligible_for_resubmission` can raise:
`ValueError` from `fromisoformat` on an unparseable string, `TypeError`
from `fromisoformat` on a non-string. -/
inductive PyError where
  | valueError
  | typeError
deriving DecidableEq

/-- The outcome of a classification call: a returned `(eligible,
reason)` pair, or a raised exception. -/
inductive ClassifyResult where
  | ok (eligible : Bool) (reason : String)
  | error (e : PyError)
deriving DecidableEq

/-- The denial-reason evaluation tail of the classifier (src/pipe.py
lines 105-118): exact match against the retryable set, then the
non-retryable set, then the heuristic fallback with its
`Inferred retryable/non-retryable` message. -/
def denialReasonVerdict (reason : String) : ClassifyResult :=
  if retryable_reasons.contains reason then ClassifyResult.ok true reason
  else if non_retryable_reasons.contains reason then ClassifyResult.ok false reason
  else if mock_llm_classifier (PyVal.vStr reason) then
    ClassifyResult.ok true ("Inferred retryable: " ++ reason)
  else
    ClassifyResult.ok false ("Inferred non-retryable: " ++ reason)

/-- `is_eligible_for_resubmission(record, today)` (src/pipe.py lines
87-118). -/
def is_eligible_for_resubmission (record : NormalizedClaim) (today : Date) :
    ClassifyResult :=
  if record.status ≠ "denied" then ClassifyResult.ok false "Status not denied"
  else if record.patient_id = "unknown" then ClassifyResult.ok false "Patient ID is null"
  else if record.submitted_at = PyVal.vNull then
    ClassifyResult.ok false "Invalid submitted date"
  else
    match record.submitted_at with
    | PyVal.vStr s =>
        match pyFromIsoformat s with
        | none => ClassifyResult.error PyError.valueError
        | some submitted_date =>
            let days_ago : Int :=
              (today.toordinal : Int) - (submitted_date.toordinal : Int)
            if days_ago ≤ 7 then
              ClassifyResult.ok false "Submitted less than or equal to 7 days ago"
            else denialReasonVerdict record.denial_reason
    | _ => ClassifyResult.error PyError.typeError

/-- The default reference date of the pipeline, `date(2025, 7, 30)`. -/
def pipelineToday : Date := Date.mk 2025 7 30

/-! ## Character-level lemmas -/

theorem charOfNat_toNat (n : Nat) (h : n < 55296) : (Char.ofNat n).toNat = n := by
  have hv : n.isValidChar := Or.inl h
  simp [Char.ofNat, hv, Char.ofNatAux, Char.toNat, UInt32.toNat, UInt32.ofNatCore]

theorem lowerChar_idem (c : Char) : lowerChar (lowerChar c) = lowerChar c := by
  unfold lowerChar
  by_cases h : 65 ≤ c.toNat ∧ c.toNat ≤ 90
  · rw [if_pos h]
    have ht : (Char.ofNat (c.toNat + 32)).toNat = c.toNat + 32 :=
      charOfNat_toNat _ (by omega)
    rw [if_neg (by rw [ht]; omega)]
  · rw [if_neg h, if_neg h]

theorem pyIsSpace_lowerChar (c : Char) : pyIsSpace (lowerChar c) = pyIsSpace c := by
  unfold lowerChar
  by_cases h : 65 ≤ c.toNat ∧ c.toNat ≤ 90
  · rw [if_pos h]
    have ht : (Char.ofNat (c.toNat + 32)).toNat = c.toNat + 32 :=
      charOfNat_toNat _ (by omega)
    have e1 : pyIsSpace (Char.ofNat (c.toNat + 32)) = false := by
      simp only [pyIsSpace, ht, Bool.or_eq_false_iff, decide_eq_false_iff_not]
      omega
    have e2 : pyIsSpace c = false := by
      simp only [pyIsSpace, Bool.or_eq_false_iff, decide_eq_false_iff_not]
      omega
    rw [e1, e2]
  · rw [if_neg h]

/-! ## Strip and lower-case lemmas -/

theorem dropWhile_stripList (l : List Char) :
    List.dropWhile pyIsSpace (stripList l) = stripList l := by
  unfold stripList
  set A := List.dropWhile pyIsSpace l with hA
  have hAfix : List.dropWhile pyIsSpace A = A := List.dropWhile_idempotent _ _
  rw [List.dropWhile_eq_self_iff]
  intro h0
  have hpre : List.rdropWhile pyIsSpace A <+: A := List.rdropWhile_prefix _ _
  have hlen : 0 < A.length := Nat.lt_of_lt_of_le h0 hpre.length_le
  have hget := hpre.getElem (Nat.lt_of_lt_of_le h0 (Nat.le_refl _))
  rw [List.dropWhile_eq_self_iff] at hAfix
  have := hAfix hlen
  simpa [List.get_eq_getElem, hget] using this

theorem stripList_idem (l : List Char) : stripList (stripList l) = stripList l := by
  conv_lhs => rw [stripList, dropWhile_stripList]
  rw [stripList, List.rdropWhile_idempotent]

theorem stripList_map_lowerChar (l : List Char) :
    stripList (l.map lowerChar) = (stripList l).map lowerChar := by
  have hfun : (pyIsSpace ∘ lowerChar) = pyIsSpace := funext pyIsSpace_lowerChar
  unfold stripList List.rdropWhile
  rw [List.dropWhile_map, hfun, ← List.map_reverse, List.dropWhile_map, hfun,
    ← List.map_reverse]

theorem map_lowerChar_idem (l : List Char) :
    (l.map lowerChar).map lowerChar = l.map lowerChar := by
  rw [List.map_map]
  exact List.map_congr_left (fun c _ => lowerChar_idem c)

theorem pyStrip_idem (s : String) : pyStrip (pyStrip s) = pyStrip s :=
  congrArg String.mk (stripList_idem s.data)

theorem pyStrip_pyLower_stable (s : String) :
    pyStrip (pyLower (pyStrip (pyLower s))) = pyStrip (pyLower s) := by
  unfold pyStrip pyLower
  refine congrArg String.mk ?_
  show stripList ((stripList (s.data.map lowerChar)).map lowerChar) = _
  rw [← stripList_map_lowerChar, map_lowerChar_idem, stripList_idem]

/-! ## Digit and date-rendering lemmas -/

theorem digitChar_props (k : Nat) :
    isDigitChar (digitChar k) = true ∧ ((digitChar k) == 'T') = false ∧
      ((digitChar k) == '-') = false := by
  unfold digitChar
  split <;> decide

theorem isDigitChar_digitChar (k : Nat) : isDigitChar (digitChar k) = true :=
  (digitChar_props k).1

theorem beqT_digitChar (k : Nat) : ('T' == digitChar k) = false := by
  have h2 := (digitChar_props k).2.1
  cases hbe : ('T' == digitChar k) with
  | false => rfl
  | true =>
      exfalso
      rw [beq_iff_eq] at hbe
      rw [← hbe] at h2
      simp at h2

theorem digitChar_val (k : Nat) (h : k < 10) : (digitChar k).toNat - 48 = k := by
  interval_cases k <;> decide

theorem digitsToNat_four (a b c d : Char) :
    digitsToNat [a, b, c, d] =
      ((a.toNat - 48) * 10 + (b.toNat - 48)) * 100 + ((c.toNat - 48) * 10 + (d.toNat - 48)) := by
  simp [digitsToNat, List.foldl]
  ring

theorem digitsToNat_two (a b : Char) :
    digitsToNat [a, b] = (a.toNat - 48) * 10 + (b.toNat - 48) := by
  simp [digitsToNat, List.foldl]
  ring

theorem digitsToNat_pad4l (n : Nat) (h : n < 10000) : digitsToNat (pad4l n) = n := by
  unfold pad4l
  rw [digitsToNat_four, digitChar_val _ (Nat.mod_lt _ (by omega)),
    digitChar_val _ (Nat.mod_lt _ (by omega)), digitChar_val _ (Nat.mod_lt _ (by omega)),
    digitChar_val _ (Nat.mod_lt _ (by omega))]
  omega

theorem digitsToNat_pad2l (n : Nat) (h : n < 100) : digitsToNat (pad2l n) = n := by
  unfold pad2l
  rw [digitsToNat_two, digitChar_val _ (Nat.mod_lt _ (by omega)),
    digitChar_val _ (Nat.mod_lt _ (by omega))]
  omega

/-! ## Parser round-trip and validity lemmas -/

theorem daysInMonth_le (y m : Nat) : daysInMonth y m ≤ 31 := by
  unfold daysInMonth
  repeat' split
  all_goals omega

theorem parseIsoDatePrefix_isoformatList (d : Date) (h : d.valid) :
    parseIsoDatePrefix d.isoformatList = some (d, []) := by
  obtain ⟨y, m, dd⟩ := d
  replace h : 1 ≤ y ∧ y ≤ 9999 ∧ 1 ≤ m ∧ m ≤ 12 ∧ 1 ≤ dd ∧ dd ≤ daysInMonth y m := h
  have hdm := daysInMonth_le y m
  obtain ⟨h1, h2, h3, h4, h5, h6⟩ := h
  have hY : digitsToNat [digitChar (y / 1000 % 10), digitChar (y / 100 % 10),
      digitChar (y / 10 % 10), digitChar (y % 10)] = y := digitsToNat_pad4l y (by omega)
  have hM : digitsToNat [digitChar (m / 10 % 10), digitChar (m % 10)] = m :=
    digitsToNat_pad2l m (by omega)
  have hD : digitsToNat [digitChar (dd / 10 % 10), digitChar (dd % 10)] = dd :=
    digitsToNat_pad2l dd (by omega)
  simp only [Date.isoformatList, pad4l, pad2l, List.cons_append, List.nil_append]
  simp only [parseIsoDatePrefix]
  rw [if_pos (by simp [isDigitChar_digitChar])]
  simp only [hY, hM, hD]
  rw [dif_pos ⟨h1, h2, h3, h4, h5, h6⟩]

theorem pyFromIsoformat_isoformat (d : Date) (h : d.valid) :
    pyFromIsoformat d.isoformat = some d := by
  unfold pyFromIsoformat
  show (match parseIsoDatePrefix d.isoformatList with
    | none => none
    | some (d, rest) =>
        match rest with
        | [] => some d
        | sep :: timePart =>
            if sep = 'T' ∧ validTimeTail timePart then some d else none) = some d
  rw [parseIsoDatePrefix_isoformatList d h]

theorem isIsoCalendarDate_isoformat (d : Date) (h : d.valid) :
    isIsoCalendarDate d.isoformat = true := by
  unfold isIsoCalendarDate
  show (match parseIsoDatePrefix d.isoformatList with
    | some (_, []) => true
    | _ => false) = true
  rw [parseIsoDatePrefix_isoformatList d h]

theorem isoformat_ne_empty (d : Date) : d.isoformat ≠ "" := by
  intro h
  have : d.isoformatList = [] := by
    have := congrArg String.data h
    simpa [Date.isoformat] using this
  simp [Date.isoformatList, pad4l, pad2l] at this

theorem isoformatList_not_contains_T (d : Date) :
    (d.isoformatList).contains 'T' = false := by
  have hd : ('T' == '-') = false := by decide
  simp only [Date.isoformatList, pad4l, pad2l, List.cons_append, List.nil_append,
    List.contains_cons, List.contains_nil, beqT_digitChar, hd, Bool.or_self,
    Bool.false_or, Bool.or_false]

theorem spanDigits_cons_digit (c : Char) (l : List Char) (h : isDigitChar c = true) :
    spanDigits (c :: l) = (c :: (spanDigits l).1, (spanDigits l).2) := by
  simp [spanDigits, h]

theorem spanDigits_cons_other (c : Char) (l : List Char) (h : isDigitChar c = false) :
    spanDigits (c :: l) = ([], c :: l) := by
  simp [spanDigits, h]

theorem isDigitChar_dash : isDigitChar '-' = false := by decide

theorem spanDigits_all_digits : ∀ (dl : List Char), (∀ c ∈ dl, isDigitChar c = true) →
    ∀ (c : Char), isDigitChar c = false → ∀ (rest : List Char),
      spanDigits (dl ++ c :: rest) = (dl, c :: rest)
  | [], _, c, hc, rest => by simpa using spanDigits_cons_other c rest hc
  | a :: as, hdl, c, hc, rest => by
      have ha : isDigitChar a = true := hdl a (by simp)
      have has : ∀ x ∈ as, isDigitChar x = true := fun x hx => hdl x (by simp [hx])
      simp only [List.cons_append]
      rw [spanDigits_cons_digit _ _ ha, spanDigits_all_digits as has c hc rest]

theorem spanDigits_all_digits_nil : ∀ (dl : List Char), (∀ c ∈ dl, isDigitChar c = true) →
    spanDigits dl = (dl, [])
  | [], _ => rfl
  | a :: as, hdl => by
      have ha : isDigitChar a = true := hdl a (by simp)
      have has : ∀ x ∈ as, isDigitChar x = true := fun x hx => hdl x (by simp [hx])
      rw [spanDigits_cons_digit _ _ ha, spanDigits_all_digits_nil as has]

theorem pyStrptimeYMD_isoformat (d : Date) (h : d.valid) :
    pyStrptimeYMD d.isoformat = some d := by
  obtain ⟨y, m, dd⟩ := d
  replace h : 1 ≤ y ∧ y ≤ 9999 ∧ 1 ≤ m ∧ m ≤ 12 ∧ 1 ≤ dd ∧ dd ≤ daysInMonth y m := h
  have hdm := daysInMonth_le y m
  obtain ⟨h1, h2, h3, h4, h5, h6⟩ := h
  have hY : digitsToNat [digitChar (y / 1000 % 10), digitChar (y / 100 % 10),
      digitChar (y / 10 % 10), digitChar (y % 10)] = y := digitsToNat_pad4l y (by omega)
  have hM : digitsToNat [digitChar (m / 10 % 10), digitChar (m % 10)] = m :=
    digitsToNat_pad2l m (by omega)
  have hD : digitsToNat [digitChar (dd / 10 % 10), digitChar (dd % 10)] = dd :=
    digitsToNat_pad2l dd (by omega)
  have hs1 : spanDigits (Date.isoformat (Date.mk y m dd)).data =
      ([digitChar (y / 1000 % 10), digitChar (y / 100 % 10), digitChar (y / 10 % 10),
        digitChar (y % 10)],
        '-' :: (digitChar (m / 10 % 10) :: digitChar (m % 10) ::
          ('-' :: (digitChar (dd / 10 % 10) :: digitChar (dd % 10) :: [])))) := by
    have := spanDigits_all_digits
      [digitChar (y / 1000 % 10), digitChar (y / 100 % 10), digitChar (y / 10 % 10),
        digitChar (y % 10)]
      (by simp [isDigitChar_digitChar]) '-' isDigitChar_dash
      (digitChar (m / 10 % 10) :: digitChar (m % 10) ::
        ('-' :: (digitChar (dd / 10 % 10) :: digitChar (dd % 10) :: [])))
    simpa [Date.isoformat, Date.isoformatList, pad4l, pad2l] using this
  have hs2 : spanDigits (digitChar (m / 10 % 10) :: digitChar (m % 10) ::
      ('-' :: (digitChar (dd / 10 % 10) :: digitChar (dd % 10) :: []))) =
      ([digitChar (m / 10 % 10), digitChar (m % 10)],
        '-' :: (digitChar (dd / 10 % 10) :: digitChar (dd % 10) :: [])) := by
    have := spanDigits_all_digits [digitChar (m / 10 % 10), digitChar (m % 10)]
      (by simp [isDigitChar_digitChar]) '-' isDigitChar_dash
      (digitChar (dd / 10 % 10) :: digitChar (dd % 10) :: [])
    simpa using this
  have hs3 : spanDigits (digitChar (dd / 10 % 10) :: digitChar (dd % 10) :: []) =
      ([digitChar (dd / 10 % 10), digitChar (dd % 10)], []) :=
    spanDigits_all_digits_nil _ (by simp [isDigitChar_digitChar])
  unfold pyStrptimeYMD
  rw [hs1]
  simp only []
  rw [if_pos (by simp)]
  rw [hs2]
  simp only []
  rw [if_pos (by simp)]
  rw [hs3]
  simp only []
  rw [if_pos (by simp)]
  simp only [hY, hM, hD]
  rw [dif_pos ⟨h1, h2, h3, h4, h5, h6⟩]

theorem parseIsoDatePrefix_valid (l : List Char) (d : Date) (rest : List Char)
    (h : parseIsoDatePrefix l = some (d, rest)) : d.valid := by
  unfold parseIsoDatePrefix at h
  split at h
  · split at h
    · split at h
      · simp only [Option.some.injEq, Prod.mk.injEq] at h
        obtain ⟨hd, -⟩ := h
        subst hd
        assumption
      · exact absurd h (by simp)
    · exact absurd h (by simp)
  · exact absurd h (by simp)

theorem pyFromIsoformat_valid (s : String) (d : Date)
    (h : pyFromIsoformat s = some d) : d.valid := by
  unfold pyFromIsoformat at h
  cases hp : parseIsoDatePrefix s.data with
  | none => simp [hp] at h
  | some pr =>
      obtain ⟨d0, rest⟩ := pr
      have hv := parseIsoDatePrefix_valid _ _ _ hp
      simp only [hp] at h
      cases rest with
      | nil =>
          simp only [Option.some.injEq] at h
          subst h
          exact hv
      | cons sep tp =>
          dsimp only at h
          by_cases hc : sep = 'T' ∧ validTimeTail tp
          · rw [if_pos hc] at h
            simp only [Option.some.injEq] at h
            subst h
            exact hv
          · rw [if_neg hc] at h
            exact absurd h (by simp)

theorem pyStrptimeYMD_valid (s : String) (d : Date)
    (h : pyStrptimeYMD s = some d) : d.valid := by
  unfold pyStrptimeYMD at h
  split at h
  · split at h
    · split at h
      · split at h
        · split at h
          · split at h
            · split at h
              · simp only [Option.some.injEq] at h
                subst h
                assumption
              · exact absurd h (by simp)
            · exact absurd h (by simp)
          · exact absurd h (by simp)
        · exact absurd h (by simp)
      · exact absurd h (by simp)
    · exact absurd h (by simp)
  · exact absurd h (by simp)

/-! ## Shape of the normalized date field -/

theorem normalizeDate_shape (v : PyVal) :
    (normalizeDate v).1 = PyVal.vNull ∨ (normalizeDate v).1 = PyVal.vNan ∨
      ∃ d : Date, d.valid ∧ (normalizeDate v).1 = PyVal.vStr d.isoformat := by
  cases v with
  | vNull => exact Or.inl rfl
  | vNan => exact Or.inr (Or.inl rfl)
  | vStr s =>
      simp only [normalizeDate]
      split
      · cases hp : pyFromIsoformat (replaceZ s) with
        | none => simp [hp]
        | some d =>
            refine Or.inr (Or.inr ⟨d, pyFromIsoformat_valid _ _ hp, ?_⟩)
            simp [hp]
      · cases hp : pyStrptimeYMD s with
        | none => simp [hp]
        | some d =>
            refine Or.inr (Or.inr ⟨d, pyStrptimeYMD_valid _ _ hp, ?_⟩)
            simp [hp]

theorem submitted_at_shape (record : RawRecord) (tag : String) :
    (normalize_record record tag).submitted_at = PyVal.vNull ∨
      (normalize_record record tag).submitted_at = PyVal.vNan ∨
      ∃ d : Date, d.valid ∧ (normalize_record record tag).submitted_at = PyVal.vStr d.isoformat := by
  show (normalizeDate (rawDateValue record)).1 = _ ∨ _
  exact normalizeDate_shape _

/-! ## Classifier helper lemmas -/

theorem denialReasonVerdict_ok (reason : String) :
    ∃ e msg, denialReasonVerdict reason = ClassifyResult.ok e msg := by
  unfold denialReasonVerdict
  split
  · exact ⟨_, _, rfl⟩
  · split
    · exact ⟨_, _, rfl⟩
    · split
      · exact ⟨_, _, rfl⟩
      · exact ⟨_, _, rfl⟩

theorem isIsoCalendarDate_parse (s : String) (h : isIsoCalendarDate s = true) :
    ∃ d : Date, pyFromIsoformat s = some d := by
  unfold isIsoCalendarDate at h
  cases hp : parseIsoDatePrefix s.data with
  | none => rw [hp] at h; exact absurd h (by simp)
  | some pr =>
      obtain ⟨d, rest⟩ := pr
      cases rest with
      | nil =>
          refine ⟨d, ?_⟩
          unfold pyFromIsoformat
          simp [hp]
      | cons a tl => rw [hp] at h; exact absurd h (by simp)

theorem classify_reaches_reasons (c : NormalizedClaim) (today : Date) (s : String)
    (d : Date) (hst : c.status = "denied") (hpid : c.patient_id ≠ "unknown")
    (hsub : c.submitted_at = PyVal.vStr s) (hparse : pyFromIsoformat s = some d)
    (hdays : 7 < (today.toordinal : Int) - (d.toordinal : Int)) :
    is_eligible_for_resubmission c today = denialReasonVerdict c.denial_reason := by
  unfold is_eligible_for_resubmission
  rw [if_neg (fun hne => hne hst), if_neg hpid, if_neg (by rw [hsub]; simp)]
  simp only [hsub, hparse]
  rw [if_neg (by omega)]

/-! ## Renormalization-stability lemmas -/

theorem vStr_truthy (s : String) (h : s ≠ "") : (PyVal.vStr s).truthy = true := by
  simp [PyVal.truthy, h]

theorem pyOr_of_truthy (a b : PyVal) (h : a.truthy = true) : pyOr a b = a := by
  simp [pyOr, h]

theorem isoformat_not_contains_T (d : Date) : d.isoformat.data.contains 'T' = false :=
  isoformatList_not_contains_T d

theorem normalizedClaim_eq_of_fields (a b : NormalizedClaim)
    (e1 : a.claim_id = b.claim_id) (e2 : a.patient_id = b.patient_id)
    (e3 : a.procedure_code = b.procedure_code) (e4 : a.denial_reason = b.denial_reason)
    (e5 : a.status = b.status) (e6 : a.submitted_at = b.submitted_at)
    (e7 : a.source_system = b.source_system) : a = b := by
  cases a
  cases b
  rw [NormalizedClaim.mk.injEq]
  exact ⟨e1, e2, e3, e4, e5, e6, e7⟩

theorem norm_claim_id_strip (r : RawRecord) (tag : String) :
    pyStrip (normalize_record r tag).claim_id = (normalize_record r tag).claim_id :=
  pyStrip_idem _

theorem norm_patient_id_strip (r : RawRecord) (tag : String) :
    pyStrip (normalize_record r tag).patient_id = (normalize_record r tag).patient_id :=
  pyStrip_idem _

theorem norm_procedure_code_strip (r : RawRecord) (tag : String) :
    pyStrip (normalize_record r tag).procedure_code =
      (normalize_record r tag).procedure_code :=
  pyStrip_idem _

theorem pyStrip_ite_unknown (c : Prop) [Decidable c] (x : String) :
    pyStrip (if c then "unknown" else pyStrip x) = (if c then "unknown" else pyStrip x) := by
  split
  · decide
  · exact pyStrip_idem x

theorem pyStripLower_ite_unknown (c : Prop) [Decidable c] (x : String) :
    pyStrip (pyLower (if c then "unknown" else pyStrip (pyLower x))) =
      (if c then "unknown" else pyStrip (pyLower x)) := by
  split
  · decide
  · exact pyStrip_pyLower_stable x

theorem norm_denial_reason_strip (r : RawRecord) (tag : String) :
    pyStrip (normalize_record r tag).denial_reason =
      (normalize_record r tag).denial_reason :=
  pyStrip_ite_unknown _ _

theorem norm_status_stable (r : RawRecord) (tag : String) :
    pyStrip (pyLower (normalize_record r tag).status) = (normalize_record r tag).status :=
  pyStripLower_ite_unknown _ _

theorem renormalize_stable (n : NormalizedClaim) (tag : String)
    (h1 : n.claim_id ≠ "") (h2 : n.patient_id ≠ "") (h3 : n.procedure_code ≠ "")
    (h4 : n.denial_reason ≠ "")
    (hs1 : pyStrip n.claim_id = n.claim_id) (hs2 : pyStrip n.patient_id = n.patient_id)
    (hs3 : pyStrip n.procedure_code = n.procedure_code)
    (hs4 : pyStrip n.denial_reason = n.denial_reason)
    (hs5 : pyStrip (pyLower n.status) = n.status)
    (hsub : n.submitted_at = PyVal.vNull ∨ n.submitted_at = PyVal.vNan ∨
      ∃ d : Date, d.valid ∧ n.submitted_at = PyVal.vStr d.isoformat)
    (hsrc : n.source_system = tag) :
    normalize_record (claimToRecord n) tag = n := by
  refine normalizedClaim_eq_of_fields _ _ ?_ ?_ ?_ ?_ ?_ ?_ ?_
  · show pyStrip (pyStr (pyOr (PyVal.vStr n.claim_id)
      (pyGetD (claimToRecord n) "id" (PyVal.vStr "unknown")))) = n.claim_id
    rw [pyOr_of_truthy _ _ (vStr_truthy _ h1)]
    exact hs1
  · show pyStrip (pyStr (pyOr (PyVal.vStr n.patient_id)
      (pyGetD (claimToRecord n) "member" (PyVal.vStr "unknown")))) = n.patient_id
    rw [pyOr_of_truthy _ _ (vStr_truthy _ h2)]
    exact hs2
  · show pyStrip (pyStr (pyOr (PyVal.vStr n.procedure_code)
      (PyVal.vStr "unknown"))) = n.procedure_code
    rw [pyOr_of_truthy _ _ (vStr_truthy _ h3)]
    exact hs3
  · show (if pdIsna (pyOr (PyVal.vStr n.denial_reason)
        (pyGet (claimToRecord n) "error_msg")) then "unknown"
      else pyStrip (pyStr (pyOr (PyVal.vStr n.denial_reason)
        (pyGetD (claimToRecord n) "error_msg" (PyVal.vStr "unknown"))))) = n.denial_reason
    rw [pyOr_of_truthy _ _ (vStr_truthy _ h4), pyOr_of_truthy _ _ (vStr_truthy _ h4)]
    rw [if_neg (by simp [pdIsna])]
    exact hs4
  · show (if pdIsna (PyVal.vStr n.status) then "unknown"
      else pyStrip (pyLower (pyStr (PyVal.vStr n.status)))) = n.status
    rw [if_neg (by simp [pdIsna])]
    exact hs5
  · show (normalizeDate (rawDateValue (claimToRecord n))).1 = n.submitted_at
    have hraw : rawDateValue (claimToRecord n) = n.submitted_at := by
      show pyOr n.submitted_at (pyGet (claimToRecord n) "date") = n.submitted_at
      rcases hsub with h | h | ⟨d, hd, h⟩
      · rw [h]; rfl
      · rw [h]; rfl
      · rw [h]
        exact pyOr_of_truthy _ _ (vStr_truthy _ (isoformat_ne_empty d))
    rw [hraw]
    rcases hsub with h | h | ⟨d, hd, h⟩
    · rw [h]; rfl
    · rw [h]; rfl
    · rw [h]
      simp only [normalizeDate]
      rw [isoformat_not_contains_T d]
      rw [if_neg (by simp)]
      rw [pyStrptimeYMD_isoformat d hd]
  · exact hsrc.symm

/-! ## Concrete records and claims used by the claim theorems -/

/-- A raw beta-shaped record with `member` bound to null and a retryable
denial reason. -/
def c1Record : RawRecord := recordOf
  [("id", PyVal.vStr "B990"), ("member", PyVal.vNull),
   ("error_msg", PyVal.vStr "Missing modifier"),
   ("date", PyVal.vStr "2025-07-01T00:00:00"), ("status", PyVal.vStr "denied")]

/-- A raw record whose date field holds NaN (a pandas empty cell). -/
def c3Record : RawRecord := recordOf
  [("claim_id", PyVal.vStr "A1"), ("submitted_at", PyVal.vNan)]

/-- A raw beta record carrying a timestamp-shaped date. -/
def c3WitnessRecord : RawRecord := recordOf
  [("id", PyVal.vStr "B988"), ("date", PyVal.vStr "2025-07-09T00:00:00")]

/-- A claim submitted exactly 7 days before the reference date. -/
def claim7 : NormalizedClaim :=
  NormalizedClaim.mk "A1" "P1" "99213" "Missing modifier" "denied"
    (PyVal.vStr "2025-07-23") "alpha"

/-- A claim submitted exactly 8 days before the reference date. -/
def claim8 : NormalizedClaim :=
  NormalizedClaim.mk "A2" "P2" "99213" "Missing modifier" "denied"
    (PyVal.vStr "2025-07-22") "alpha"

/-- A claim with a denial reason from the retryable set. -/
def claimC5a : NormalizedClaim :=
  NormalizedClaim.mk "A124" "P002" "99214" "Incorrect NPI" "denied"
    (PyVal.vStr "2025-07-10") "alpha"

/-- A claim with a denial reason from the non-retryable set. -/
def claimC5b : NormalizedClaim :=
  NormalizedClaim.mk "A125" "P003" "99215" "Authorization expired" "denied"
    (PyVal.vStr "2025-07-05") "alpha"

/-- A claim whose reason contains both the retryable and a non-retryable
heuristic keyword. -/
def claimC6 : NormalizedClaim :=
  NormalizedClaim.mk "B1" "P9" "99401" "form incomplete not billable" "denied"
    (PyVal.vStr "2025-07-01") "beta"

/-- A claim with the ambiguous reason of the spec example. -/
def claimC6w : NormalizedClaim :=
  NormalizedClaim.mk "B2" "P9" "99401" "form incomplete" "denied"
    (PyVal.vStr "2025-07-01") "beta"

/-- A raw record whose claim_id is whitespace only. -/
def c7Record : RawRecord := recordOf [("claim_id", PyVal.vStr " ")]

/-- A fully-populated alpha-shaped raw record. -/
def c7WitnessRecord : RawRecord := recordOf
  [("claim_id", PyVal.vStr "A123"), ("patient_id", PyVal.vStr "P001"),
   ("procedure_code", PyVal.vStr "99213"),
   ("denial_reason", PyVal.vStr "Missing modifier"),
   ("submitted_at", PyVal.vStr "2025-07-01"), ("status", PyVal.vStr "denied")]

/-- Two claims agreeing on the four rule fields but differing in
claim_id, procedure_code and source_system. -/
def claimC8a : NormalizedClaim :=
  NormalizedClaim.mk "A1" "P1" "11111" "Missing modifier" "denied"
    (PyVal.vStr "2025-07-01") "alpha"

/-- Counterpart of `claimC8a` with the other non-rule fields. -/
def claimC8b : NormalizedClaim :=
  NormalizedClaim.mk "ZZZ" "P1" "22222" "Missing modifier" "denied"
    (PyVal.vStr "2025-07-01") "beta"

/-- A raw beta record with a `code` key but no `procedure_code` key. -/
def c9Record : RawRecord := recordOf
  [("code", PyVal.vStr "99213"), ("id", PyVal.vStr "B987")]

/-- A claim whose denial reason is the normalizer substitute "unknown". -/
def claimC10 : NormalizedClaim :=
  NormalizedClaim.mk "B989" "P012" "99215" "unknown" "denied"
    (PyVal.vStr "2025-07-10") "beta"

/-! ## Claim theorems -/

/-- C1: the code contradicts the claim. For the raw record with the
`patient_id` key absent and `member` bound to null, `normalize_record`
produces `patient_id = "None"` (Python `str(None)`), not `"unknown"`,
and on a denied claim with a retryable reason the classifier then
returns eligible with reason "Missing modifier" instead of ineligible
with reason "Patient ID is null". -/
theorem C1_null_member_eval :
    (normalize_record c1Record "beta").patient_id = "None" ∧
    (normalize_record c1Record "beta").status = "denied" ∧
    is_eligible_for_resubmission (normalize_record c1Record "beta") pipelineToday =
      ClassifyResult.ok true "Missing modifier" := by
  decide

/-- C2: for every NormalizedClaim whose submitted_at is an ISO
calendar-date string or null, and every reference date, the classifier
terminates with a returned verdict and never raises. -/
theorem C2_classifier_total (c : NormalizedClaim) (today : Date)
    (hwf : c.submitted_at = PyVal.vNull ∨
      ∃ s : String, c.submitted_at = PyVal.vStr s ∧ isIsoCalendarDate s = true) :
    ∃ e msg, is_eligible_for_resubmission c today = ClassifyResult.ok e msg := by
  unfold is_eligible_for_resubmission
  by_cases h1 : c.status ≠ "denied"
  · rw [if_pos h1]
    exact ⟨_, _, rfl⟩
  · rw [if_neg h1]
    by_cases h2 : c.patient_id = "unknown"
    · rw [if_pos h2]
      exact ⟨_, _, rfl⟩
    · rw [if_neg h2]
      by_cases h3 : c.submitted_at = PyVal.vNull
      · rw [if_pos h3]
        exact ⟨_, _, rfl⟩
      · rw [if_neg h3]
        rcases hwf with h | ⟨s, hs, hiso⟩
        · exact absurd h h3
        · obtain ⟨d, hd⟩ := isIsoCalendarDate_parse s hiso
          simp only [hs, hd]
          by_cases h4 : (today.toordinal : Int) - (d.toordinal : Int) ≤ 7
          · rw [if_pos h4]
            exact ⟨_, _, rfl⟩
          · rw [if_neg h4]
            exact denialReasonVerdict_ok _

/-- C2 witness: the total-classifier theorem applied to a concrete
well-formed claim. -/
theorem C2_classifier_total_witness :
    ∃ e msg, is_eligible_for_resubmission claimC5a pipelineToday =
      ClassifyResult.ok e msg :=
  C2_classifier_total claimC5a pipelineToday
    (Or.inr ⟨"2025-07-10", rfl, by decide⟩)

/-- C3 counterexample: a raw record whose submitted_at value is NaN (as
a pandas empty cell delivers) normalizes to a NaN submitted_at, which is
neither an ISO calendar-date string nor null. -/
theorem C3_nan_date_counterexample :
    (normalize_record c3Record "alpha").submitted_at = PyVal.vNan ∧
    isDateOrNull (normalize_record c3Record "alpha").submitted_at = false := by
  decide

/-- C3 (amended): for every raw record whose resolved source date value
(`submitted_at`, else `date`) is a string or null, the normalized
submitted_at is either a valid ISO calendar-date string or null, and the
warning event fires exactly when that value is a string whose parse (the
fromisoformat branch after the Z rewrite for T-containing strings, the
strptime branch otherwise) fails. -/
theorem C3_amended_date_shape (record : RawRecord) (tag : String)
    (h : stringOrNull (rawDateValue record) = true) :
    isDateOrNull (normalize_record record tag).submitted_at = true ∧
    (normalize_warns record = true ↔ ∃ s : String,
      rawDateValue record = PyVal.vStr s ∧
      (if s.data.contains 'T' then pyFromIsoformat (replaceZ s) = none
       else pyStrptimeYMD s = none)) := by
  constructor
  · show isDateOrNull (normalizeDate (rawDateValue record)).1 = true
    cases hv : rawDateValue record with
    | vNull => rfl
    | vNan => rw [hv] at h; exact absurd h (by simp [stringOrNull])
    | vStr s =>
        simp only [normalizeDate]
        split
        · cases hp : pyFromIsoformat (replaceZ s) with
          | none => simp [isDateOrNull]
          | some d =>
              simp [isDateOrNull,
                isIsoCalendarDate_isoformat d (pyFromIsoformat_valid _ _ hp)]
        · cases hp : pyStrptimeYMD s with
          | none => simp [isDateOrNull]
          | some d =>
              simp [isDateOrNull,
                isIsoCalendarDate_isoformat d (pyStrptimeYMD_valid _ _ hp)]
  · unfold normalize_warns
    cases hv : rawDateValue record with
    | vNull =>
        constructor
        · intro hw
          exact absurd hw (by simp [normalizeDate])
        · rintro ⟨s, hs, -⟩
          exact absurd hs (by simp)
    | vNan => rw [hv] at h; exact absurd h (by simp [stringOrNull])
    | vStr s =>
        simp only [normalizeDate]
        constructor
        · intro hw
          refine ⟨s, rfl, ?_⟩
          split at hw
          · rename_i hT
            rw [if_pos hT]
            cases hp : pyFromIsoformat (replaceZ s) with
            | none => rfl
            | some d => rw [hp] at hw; exact absurd hw (by simp)
          · rename_i hT
            rw [if_neg hT]
            cases hp : pyStrptimeYMD s with
            | none => rfl
            | some d => rw [hp] at hw; exact absurd hw (by simp)
        · rintro ⟨t, ht, hfail⟩
          have hts : t = s := ((PyVal.vStr.injEq s t).mp ht).symm
          subst hts
          split
          · rename_i hT
            rw [if_pos hT] at hfail
            rw [hfail]
          · rename_i hT
            rw [if_neg hT] at hfail
            rw [hfail]

/-- C3 witness: the amended date-shape theorem applied to a concrete
record carrying a T-separated timestamp. -/
theorem C3_amended_date_shape_witness :
    isDateOrNull (normalize_record c3WitnessRecord "beta").submitted_at = true ∧
    (normalize_warns c3WitnessRecord = true ↔ ∃ s : String,
      rawDateValue c3WitnessRecord = PyVal.vStr s ∧
      (if s.data.contains 'T' then pyFromIsoformat (replaceZ s) = none
       else pyStrptimeYMD s = none)) :=
  C3_amended_date_shape c3WitnessRecord "beta" (by decide)

/-- C4: the classifier evaluates its rules in the order status,
patient_id, null submitted_at, date window, with the stated reasons;
the 7-day bound is inclusive, and at more than 7 days (in particular 8)
evaluation proceeds to the denial-reason rules. -/
theorem C4_rule_cascade (c : NormalizedClaim) (today : Date) :
    (c.status ≠ "denied" →
      is_eligible_for_resubmission c today =
        ClassifyResult.ok false "Status not denied") ∧
    (c.status = "denied" → c.patient_id = "unknown" →
      is_eligible_for_resubmission c today =
        ClassifyResult.ok false "Patient ID is null") ∧
    (c.status = "denied" → c.patient_id ≠ "unknown" →
      c.submitted_at = PyVal.vNull →
      is_eligible_for_resubmission c today =
        ClassifyResult.ok false "Invalid submitted date") ∧
    (∀ (s : String) (d : Date), c.status = "denied" → c.patient_id ≠ "unknown" →
      c.submitted_at = PyVal.vStr s → pyFromIsoformat s = some d →
      (today.toordinal : Int) - (d.toordinal : Int) ≤ 7 →
      is_eligible_for_resubmission c today =
        ClassifyResult.ok false "Submitted less than or equal to 7 days ago") ∧
    (∀ (s : String) (d : Date), c.status = "denied" → c.patient_id ≠ "unknown" →
      c.submitted_at = PyVal.vStr s → pyFromIsoformat s = some d →
      (today.toordinal : Int) - (d.toordinal : Int) = 8 →
      is_eligible_for_resubmission c today = denialReasonVerdict c.denial_reason) := by
  refine ⟨?_, ?_, ?_, ?_, ?_⟩
  · intro h
    unfold is_eligible_for_resubmission
    rw [if_pos h]
  · intro h hp
    unfold is_eligible_for_resubmission
    rw [if_neg (fun hne => hne h), if_pos hp]
  · intro h hp hn
    unfold is_eligible_for_resubmission
    rw [if_neg (fun hne => hne h), if_neg hp, if_pos hn]
  · intro s d h hp hs hparse hle
    unfold is_eligible_for_resubmission
    rw [if_neg (fun hne => hne h), if_neg hp, if_neg (by rw [hs]; simp)]
    simp only [hs, hparse]
    rw [if_pos hle]
  · intro s d h hp hs hparse heq
    exact classify_reaches_reasons c today s d h hp hs hparse (by omega)

/-- C4 witness: the cascade theorem applied at the 7-day boundary (rule
4 fires) and at 8 days (evaluation reaches the reason rules). -/
theorem C4_rule_cascade_witness :
    is_eligible_for_resubmission claim7 pipelineToday =
      ClassifyResult.ok false "Submitted less than or equal to 7 days ago" ∧
    is_eligible_for_resubmission claim8 pipelineToday =
      denialReasonVerdict "Missing modifier" :=
  ⟨(C4_rule_cascade claim7 pipelineToday).2.2.2.1 "2025-07-23" (Date.mk 2025 7 23)
      rfl (by decide) rfl (by decide) (by decide),
   (C4_rule_cascade claim8 pipelineToday).2.2.2.2 "2025-07-22" (Date.mk 2025 7 22)
      rfl (by decide) rfl (by decide) (by decide)⟩

/-- C5: for a denied claim with a known patient, a valid submitted date
more than 7 days old, a denial reason in the retryable set yields
eligible with that exact reason, and one in the non-retryable set yields
ineligible with that exact reason. -/
theorem C5_fixed_sets (c : NormalizedClaim) (today : Date) (s : String) (d : Date)
    (hst : c.status = "denied") (hpid : c.patient_id ≠ "unknown")
    (hsub : c.submitted_at = PyVal.vStr s) (hparse : pyFromIsoformat s = some d)
    (hdays : 7 < (today.toordinal : Int) - (d.toordinal : Int)) :
    (retryable_reasons.contains c.denial_reason = true →
      is_eligible_for_resubmission c today = ClassifyResult.ok true c.denial_reason) ∧
    (non_retryable_reasons.contains c.denial_reason = true →
      is_eligible_for_resubmission c today = ClassifyResult.ok false c.denial_reason) := by
  have hmain := classify_reaches_reasons c today s d hst hpid hsub hparse hdays
  constructor
  · intro hmem
    rw [hmain]
    unfold denialReasonVerdict
    rw [if_pos hmem]
  · intro hmem
    have hor : c.denial_reason = "Authorization expired" ∨
        c.denial_reason = "Incorrect provider type" := by
      simpa [non_retryable_reasons, List.contains_cons, List.contains_nil] using hmem
    have hnot : retryable_reasons.contains c.denial_reason = false := by
      rcases hor with h | h <;> rw [h] <;> decide
    rw [hmain]
    unfold denialReasonVerdict
    rw [if_neg (by rw [hnot]; simp), if_pos hmem]

/-- C5 witness: the fixed-set theorem applied to a retryable and a
non-retryable concrete claim. -/
theorem C5_fixed_sets_witness :
    is_eligible_for_resubmission claimC5a pipelineToday =
      ClassifyResult.ok true "Incorrect NPI" ∧
    is_eligible_for_resubmission claimC5b pipelineToday =
      ClassifyResult.ok false "Authorization expired" :=
  ⟨(C5_fixed_sets claimC5a pipelineToday "2025-07-10" (Date.mk 2025 7 10)
      rfl (by decide) rfl (by decide) (by decide)).1 (by decide),
   (C5_fixed_sets claimC5b pipelineToday "2025-07-05" (Date.mk 2025 7 5)
      rfl (by decide) rfl (by decide) (by decide)).2 (by decide)⟩

/-- C6 counterexample: the reason "form incomplete not billable"
contains "not billable", so the claim as stated requires non-retryable,
but the code checks "form incomplete" first and returns eligible with
the inferred-retryable message. -/
theorem C6_overlap_counterexample :
    pyIn "not billable" (pyLower claimC6.denial_reason) = true ∧
    retryable_reasons.contains claimC6.denial_reason = false ∧
    non_retryable_reasons.contains claimC6.denial_reason = false ∧
    is_eligible_for_resubmission claimC6 pipelineToday =
      ClassifyResult.ok true "Inferred retryable: form incomplete not billable" := by
  decide

/-- C6 (amended): for a claim passing rules 1-4 whose reason is in
neither fixed set, the fallback applies its substring checks to the
lower-cased reason in source order — "incorrect procedure" (non-
retryable), then "form incomplete" (retryable), then "not billable"
(non-retryable), default non-retryable — the first match deciding, with
the verdict message preserving the original casing; a null reason is
classified non-retryable. -/
theorem C6_fallback_amended (c : NormalizedClaim) (today : Date) (s : String) (d : Date)
    (hst : c.status = "denied") (hpid : c.patient_id ≠ "unknown")
    (hsub : c.submitted_at = PyVal.vStr s) (hparse : pyFromIsoformat s = some d)
    (hdays : 7 < (today.toordinal : Int) - (d.toordinal : Int))
    (hr1 : retryable_reasons.contains c.denial_reason = false)
    (hr2 : non_retryable_reasons.contains c.denial_reason = false) :
    is_eligible_for_resubmission c today =
      (if pyIn "incorrect procedure" (pyLower c.denial_reason) then
        ClassifyResult.ok false ("Inferred non-retryable: " ++ c.denial_reason)
      else if pyIn "form incomplete" (pyLower c.denial_reason) then
        ClassifyResult.ok true ("Inferred retryable: " ++ c.denial_reason)
      else if pyIn "not billable" (pyLower c.denial_reason) then
        ClassifyResult.ok false ("Inferred non-retryable: " ++ c.denial_reason)
      else ClassifyResult.ok false ("Inferred non-retryable: " ++ c.denial_reason)) ∧
    mock_llm_classifier PyVal.vNull = false := by
  refine ⟨?_, rfl⟩
  rw [classify_reaches_reasons c today s d hst hpid hsub hparse hdays]
  unfold denialReasonVerdict mock_llm_classifier
  rw [if_neg (by rw [hr1]; simp), if_neg (by rw [hr2]; simp)]
  simp only [pdIsna, pyStr]
  by_cases hc1 : pyIn "incorrect procedure" (pyLower c.denial_reason) = true <;>
    by_cases hc2 : pyIn "form incomplete" (pyLower c.denial_reason) = true <;>
    by_cases hc3 : pyIn "not billable" (pyLower c.denial_reason) = true <;>
    simp [hc1, hc2, hc3]

/-- C6 witness: the amended fallback theorem applied to the ambiguous
reason "form incomplete" (eligible, inferred-retryable message). -/
theorem C6_fallback_amended_witness :
    is_eligible_for_resubmission claimC6w pipelineToday =
      (if pyIn "incorrect procedure" (pyLower claimC6w.denial_reason) then
        ClassifyResult.ok false ("Inferred non-retryable: " ++ claimC6w.denial_reason)
      else if pyIn "form incomplete" (pyLower claimC6w.denial_reason) then
        ClassifyResult.ok true ("Inferred retryable: " ++ claimC6w.denial_reason)
      else if pyIn "not billable" (pyLower claimC6w.denial_reason) then
        ClassifyResult.ok false ("Inferred non-retryable: " ++ claimC6w.denial_reason)
      else ClassifyResult.ok false ("Inferred non-retryable: " ++ claimC6w.denial_reason)) ∧
    mock_llm_classifier PyVal.vNull = false :=
  C6_fallback_amended claimC6w pipelineToday "2025-07-01" (Date.mk 2025 7 1)
    rfl (by decide) rfl (by decide) (by decide) (by decide) (by decide)

/-- C7 counterexample: a record whose claim_id is whitespace only
normalizes to an empty claim_id, and renormalizing that claim replaces
it by "unknown", so normalize is not idempotent on all raw records. -/
theorem C7_whitespace_counterexample :
    (normalize_record c7Record "alpha").claim_id = "" ∧
    (normalize_record (claimToRecord (normalize_record c7Record "alpha")) "alpha").claim_id
      = "unknown" ∧
    normalize_record (claimToRecord (normalize_record c7Record "alpha")) "alpha" ≠
      normalize_record c7Record "alpha" := by
  decide

/-- C7 (amended): normalize is idempotent on every raw record whose
normalized claim has non-empty claim_id, patient_id, procedure_code and
denial_reason: renormalizing the field set of the normalized claim with
the same source tag reproduces it exactly. -/
theorem C7_idempotent_amended (r : RawRecord) (tag : String)
    (h1 : (normalize_record r tag).claim_id ≠ "")
    (h2 : (normalize_record r tag).patient_id ≠ "")
    (h3 : (normalize_record r tag).procedure_code ≠ "")
    (h4 : (normalize_record r tag).denial_reason ≠ "") :
    normalize_record (claimToRecord (normalize_record r tag)) tag =
      normalize_record r tag :=
  renormalize_stable _ tag h1 h2 h3 h4 (norm_claim_id_strip r tag)
    (norm_patient_id_strip r tag) (norm_procedure_code_strip r tag)
    (norm_denial_reason_strip r tag) (norm_status_stable r tag)
    (submitted_at_shape r tag) rfl

/-- C7 witness: idempotence on a fully-populated alpha record. -/
theorem C7_idempotent_amended_witness :
    normalize_record (claimToRecord (normalize_record c7WitnessRecord "alpha")) "alpha" =
      normalize_record c7WitnessRecord "alpha" :=
  C7_idempotent_amended c7WitnessRecord "alpha" (by decide) (by decide) (by decide)
    (by decide)

/-- C8: the verdict depends only on status, patient_id, submitted_at and
denial_reason — two claims agreeing on those four fields classify
identically for any one reference date, whatever their claim_id,
procedure_code and source_system. -/
theorem C8_verdict_depends_on_rule_fields (a b : NormalizedClaim) (today : Date)
    (h1 : a.status = b.status) (h2 : a.patient_id = b.patient_id)
    (h3 : a.submitted_at = b.submitted_at) (h4 : a.denial_reason = b.denial_reason) :
    is_eligible_for_resubmission a today = is_eligible_for_resubmission b today := by
  unfold is_eligible_for_resubmission
  rw [h1, h2, h3, h4]

/-- C8 witness: two concrete claims differing only in claim_id,
procedure_code and source_system classify identically. -/
theorem C8_verdict_depends_on_rule_fields_witness :
    is_eligible_for_resubmission claimC8a pipelineToday =
      is_eligible_for_resubmission claimC8b pipelineToday :=
  C8_verdict_depends_on_rule_fields claimC8a claimC8b pipelineToday rfl rfl rfl rfl

/-- C9: the normalizer never reads a `code` alias — a record without a
truthy `procedure_code` value gets procedure_code "unknown", whatever
its `code` key holds. -/
theorem C9_no_code_alias (record : RawRecord) (tag : String)
    (h : record "procedure_code" = none ∨
      ∃ v : PyVal, record "procedure_code" = some v ∧ v.truthy = false) :
    (normalize_record record tag).procedure_code = "unknown" := by
  show pyStrip (pyStr (pyOr (pyGet record "procedure_code") (PyVal.vStr "unknown"))) =
    "unknown"
  have hv : (pyGet record "procedure_code").truthy = false := by
    rcases h with h | ⟨v, hv, ht⟩
    · simp [pyGet, h, PyVal.truthy]
    · simp [pyGet, hv, ht]
  have hor : pyOr (pyGet record "procedure_code") (PyVal.vStr "unknown") =
      PyVal.vStr "unknown" := by
    unfold pyOr
    rw [hv]
    simp
  rw [hor]
  decide

/-- C9 witness: a beta record carrying `code = "99213"` but no
`procedure_code` key still normalizes to procedure_code "unknown". -/
theorem C9_no_code_alias_witness :
    (normalize_record c9Record "beta").procedure_code = "unknown" ∧
    c9Record "code" = some (PyVal.vStr "99213") :=
  ⟨C9_no_code_alias c9Record "beta" (Or.inl (by decide)), by decide⟩

/-- C10: a claim passing rules 1-4 whose denial_reason is the literal
"unknown" (the normalizer substitute for an absent or null reason) is
classified ineligible with reason "Inferred non-retryable: unknown". -/
theorem C10_unknown_reason_nonretryable (c : NormalizedClaim) (today : Date)
    (s : String) (d : Date) (hst : c.status = "denied")
    (hpid : c.patient_id ≠ "unknown") (hsub : c.submitted_at = PyVal.vStr s)
    (hparse : pyFromIsoformat s = some d)
    (hdays : 7 < (today.toordinal : Int) - (d.toordinal : Int))
    (hr : c.denial_reason = "unknown") :
    is_eligible_for_resubmission c today =
      ClassifyResult.ok false "Inferred non-retryable: unknown" := by
  rw [classify_reaches_reasons c today s d hst hpid hsub hparse hdays, hr]
  decide

/-- C10 witness: the unknown-reason theorem applied to a concrete
claim. -/
theorem C10_unknown_reason_nonretryable_witness :
    is_eligible_for_resubmission claimC10 pipelineToday =
      ClassifyResult.ok false "Inferred non-retryable: unknown" :=
  C10_unknown_reason_nonretryable claimC10 pipelineToday "2025-07-10"
    (Date.mk 2025 7 10) rfl (by decide) rfl (by decide) (by decide) rfl

end IngestPipe
